import Mathlib

/-!
Verification of the tiered admission-control layer of the VirtualCFO backend.

The repository ships two source files: the Express server entry point
(`src/unnamed/part_000`, here called server.js) and the OpenAI helper module
(`src/backend/config/openai.js`).  The rate-limiter core itself lives in
`middleware/security`, which is not part of the provided sources; following
the specification, its data model and algorithms are modelled here directly
from the spec text (such definitions carry a `Modelled from the spec:` doc
comment).  Everything translated from server.js or openai.js says so in its
doc comment.
-/

namespace VCFO

/-- Modelled from the spec: §3 `RateLimitRule` — the middleware/security
module holding the rules is not under the provided sources.  `windowMs` is a
duration in milliseconds, `maxRequests` the admission cap per window. -/
structure RateLimitRule where
  windowMs : Nat
  maxRequests : Nat
  tierName : String
  deriving DecidableEq

/-- Modelled from the spec: §3 `RateLimitKey` — a client identity paired with
a tier name (fixed-window counting is keyed by `(key, tier)`, §4.3). -/
abbrev Key := String × String

/-- Modelled from the spec: §3 `CounterRecord` held by the local backend —
`(count, windowStartedAt)` per key (§4.1, local backend). -/
structure CounterEntry where
  count : Nat
  windowStartedAt : Nat
  deriving DecidableEq

/-- The local in-process counter table, one optional entry per key. -/
def Store : Type := Key → Option CounterEntry

/-- Modelled from the spec: §4.1 local backend increment —
`increment(key, windowMs) -> (count, resetAt)`.  If no entry exists or the
current time exceeds `windowStartedAt + windowMs`, reset to `(1, now)`;
otherwise increment the count in place.  `resetAt` is the end of the window
the returned count belongs to. -/
def localIncrement (store : Store) (key : Key) (windowMs now : Nat) :
    (Nat × Nat) × Store :=
  match store key with
  | none =>
      ((1, now + windowMs),
       fun k => if k = key then some ⟨1, now⟩ else store k)
  | some e =>
      if now > e.windowStartedAt + windowMs then
        ((1, now + windowMs),
         fun k => if k = key then some ⟨1, now⟩ else store k)
      else
        ((e.count + 1, e.windowStartedAt + windowMs),
         fun k => if k = key then some ⟨e.count + 1, e.windowStartedAt⟩ else store k)

/-- Result record of the Rate Limiter Core,
`check(key, rule) -> \x7b allowed, remaining, resetAt \x7d` (spec §4.3). -/
structure CheckResult where
  allowed : Bool
  remaining : Int
  resetAt : Nat
  deriving DecidableEq

/-- Modelled from the spec: §4.3 Rate Limiter Core — fixed-window counting;
`remaining = max(0, rule.maxRequests - count)`;
`allowed = count <= rule.maxRequests`, with `count` the value returned by the
active Counter Store Adapter increment (the local backend here). -/
def check (store : Store) (key : Key) (rule : RateLimitRule) (now : Nat) :
    CheckResult × Store :=
  let r := localIncrement store key rule.windowMs now
  (⟨decide (r.1.1 ≤ rule.maxRequests),
    max 0 ((rule.maxRequests : Int) - (r.1.1 : Int)),
    r.1.2⟩,
   r.2)

/-- Run `check` for one key over a list of arrival times, threading the
store; returns the per-request results and the final store. -/
def processSeq (key : Key) (rule : RateLimitRule) :
    Store → List Nat → List CheckResult × Store
  | store, [] => ([], store)
  | store, t :: ts =>
      let p := check store key rule t
      let q := processSeq key rule p.2 ts
      (p.1 :: q.1, q.2)

/-- The result produced for the request whose increment returned count `n`
inside a window that started at `t0` and is still open. -/
def windowResult (rule : RateLimitRule) (t0 n : Nat) : CheckResult :=
  ⟨decide (n ≤ rule.maxRequests),
   max 0 ((rule.maxRequests : Int) - (n : Int)),
   t0 + rule.windowMs⟩

lemma check_fresh (store : Store) (key : Key) (rule : RateLimitRule) (now : Nat)
    (hs : store key = none) :
    check store key rule now =
      (windowResult rule now 1,
       fun k => if k = key then some ⟨1, now⟩ else store k) := by
  simp [check, localIncrement, hs, windowResult]

lemma check_within (store : Store) (key : Key) (rule : RateLimitRule)
    (c t0 now : Nat) (hs : store key = some ⟨c, t0⟩)
    (hin : now ≤ t0 + rule.windowMs) :
    check store key rule now =
      (windowResult rule t0 (c + 1),
       fun k => if k = key then some ⟨c + 1, t0⟩ else store k) := by
  have hnot : ¬ (now > t0 + rule.windowMs) := by omega
  simp [check, localIncrement, hs, hnot, windowResult]

lemma localIncrement_other (store : Store) (key k' : Key) (windowMs now : Nat)
    (h : k' ≠ key) :
    (localIncrement store key windowMs now).2 k' = store k' := by
  unfold localIncrement
  cases hsk : store key with
  | none => simp [h]
  | some e =>
      by_cases ht : now > e.windowStartedAt + windowMs <;> simp [ht, h]

lemma check_store_eq (store : Store) (key : Key) (rule : RateLimitRule) (now : Nat) :
    (check store key rule now).2 = (localIncrement store key rule.windowMs now).2 :=
  rfl

lemma check_other (store : Store) (key k' : Key) (rule : RateLimitRule) (now : Nat)
    (h : k' ≠ key) :
    (check store key rule now).2 k' = store k' := by
  rw [check_store_eq]
  exact localIncrement_other store key k' rule.windowMs now h

lemma localIncrement_congr (s₁ s₂ : Store) (key : Key) (windowMs now : Nat)
    (h : s₁ key = s₂ key) :
    (localIncrement s₁ key windowMs now).1 = (localIncrement s₂ key windowMs now).1 := by
  unfold localIncrement
  rw [h]
  cases s₂ key with
  | none => rfl
  | some e => by_cases ht : now > e.windowStartedAt + windowMs <;> simp [ht]

lemma check_congr (s₁ s₂ : Store) (key : Key) (rule : RateLimitRule) (now : Nat)
    (h : s₁ key = s₂ key) :
    (check s₁ key rule now).1 = (check s₂ key rule now).1 := by
  simp only [check]
  rw [localIncrement_congr s₁ s₂ key rule.windowMs now h]

lemma processSeq_other (key k' : Key) (rule : RateLimitRule) (h : k' ≠ key)
    (ts : List Nat) :
    ∀ store : Store, (processSeq key rule store ts).2 k' = store k' := by
  induction ts with
  | nil => intro store; rfl
  | cons t ts ih =>
      intro store
      simp only [processSeq]
      rw [ih]
      exact check_other store key k' rule t h

lemma processSeq_within (key : Key) (rule : RateLimitRule) (ts : List Nat) :
    ∀ (store : Store) (c t0 : Nat), store key = some ⟨c, t0⟩ →
      (∀ t ∈ ts, t ≤ t0 + rule.windowMs) →
      (processSeq key rule store ts).1 =
        (List.range ts.length).map (fun i => windowResult rule t0 (c + i + 1))
      ∧ (processSeq key rule store ts).2 key = some ⟨c + ts.length, t0⟩ := by
  induction ts with
  | nil =>
      intro store c t0 hs _
      exact ⟨rfl, by simpa [processSeq] using hs⟩
  | cons t ts ih =>
      intro store c t0 hs hin
      have hstep := check_within store key rule c t0 t hs (hin t (by simp))
      have hstore' : (check store key rule t).2 key = some ⟨c + 1, t0⟩ := by
        rw [hstep]; simp
      have ihm := ih (check store key rule t).2 (c + 1) t0 hstore'
        (fun t' ht' => hin t' (by simp [ht']))
      have hhead : (check store key rule t).1 = windowResult rule t0 (c + 1) := by
        rw [hstep]
      constructor
      · simp only [processSeq, List.length_cons, List.range_succ_eq_map,
          List.map_cons, List.map_map]
        rw [hhead, ihm.1]
        refine List.cons_eq_cons.mpr ⟨by simp, ?_⟩
        refine List.map_congr_left (fun i _ => ?_)
        simp only [Function.comp]
        have h1 : c + 1 + i + 1 = c + (i + 1) + 1 := by omega
        rw [h1]
      · simp only [processSeq]
        rw [ihm.2]
        simp [Nat.add_assoc, Nat.add_comm 1 ts.length]

lemma processSeq_fresh (key : Key) (rule : RateLimitRule) (store : Store)
    (t0 : Nat) (ts : List Nat)
    (h0 : store key = none)
    (hin : ∀ t ∈ ts, t ≤ t0 + rule.windowMs) :
    (processSeq key rule store (t0 :: ts)).1 =
      (List.range (ts.length + 1)).map (fun i => windowResult rule t0 (i + 1)) := by
  have hstep := check_fresh store key rule t0 h0
  have hstore' : (check store key rule t0).2 key = some ⟨1, t0⟩ := by
    rw [hstep]; simp
  have hmain := processSeq_within key rule ts (check store key rule t0).2 1 t0 hstore' hin
  simp only [processSeq]
  rw [hmain.1]
  have hhead : (check store key rule t0).1 = windowResult rule t0 1 := by rw [hstep]
  rw [hhead]
  simp only [List.range_succ_eq_map, List.map_cons, List.map_map]
  refine List.cons_eq_cons.mpr ⟨rfl, ?_⟩
  refine List.map_congr_left (fun i _ => ?_)
  simp only [Function.comp]
  have h1 : 1 + i + 1 = i + 1 + 1 := by omega
  rw [h1]

lemma countP_range_min (n m : Nat) :
    (List.range n).countP (fun i => decide (i + 1 ≤ m)) = min n m := by
  induction n with
  | zero => simp
  | succ n ih =>
      rw [List.range_succ, List.countP_append, ih]
      by_cases h : n + 1 ≤ m <;> simp [List.countP_cons, h] <;> omega

/-- Claim C1: for every key and rate-limit rule, within any single fixed
window at most `rule.maxRequests` requests for that key are admitted, and
every request from the `(maxRequests+1)`-th on arriving for that key within
the same window — in particular the `(maxRequests+1)`-th itself — is
denied. -/
theorem c1_window_admission_bound (key : Key) (rule : RateLimitRule)
    (store : Store) (t0 : Nat) (ts : List Nat)
    (h0 : store key = none)
    (hin : ∀ t ∈ ts, t ≤ t0 + rule.windowMs) :
    ((processSeq key rule store (t0 :: ts)).1.filter (fun r => r.allowed)).length
        ≤ rule.maxRequests
    ∧ ((processSeq key rule store (t0 :: ts)).1.drop rule.maxRequests).all
        (fun r => !r.allowed) = true := by
  have hres := processSeq_fresh key rule store t0 ts h0 hin
  constructor
  · rw [hres, List.filter_map, List.length_map, ← List.countP_eq_length_filter]
    have hfun : ((fun r : CheckResult => r.allowed) ∘ fun i => windowResult rule t0 (i + 1))
        = fun i => decide (i + 1 ≤ rule.maxRequests) := by
      funext i
      simp [windowResult, Function.comp]
    rw [hfun, countP_range_min]
    omega
  · rw [hres, List.all_eq_true]
    intro r hr
    obtain ⟨j, hj, rfl⟩ := List.getElem_of_mem hr
    simp only [List.getElem_drop, List.getElem_map, List.getElem_range]
    simp only [windowResult, Bool.not_eq_true', decide_eq_false_iff_not]
    omega

/-- Witness for C1: rule with maxRequests 2, four requests in one window. -/
theorem c1_window_admission_bound_witness :
    ((processSeq ("1.2.3.4", "general") ⟨1000, 2, "general"⟩ (fun _ => none)
        (0 :: [100, 200, 300])).1.filter (fun r => r.allowed)).length ≤ 2
    ∧ ((processSeq ("1.2.3.4", "general") ⟨1000, 2, "general"⟩ (fun _ => none)
        (0 :: [100, 200, 300])).1.drop 2).all (fun r => !r.allowed) = true :=
  c1_window_admission_bound ("1.2.3.4", "general") ⟨1000, 2, "general"⟩
    (fun _ => none) 0 [100, 200, 300] rfl (by decide)

/-- Claim C3: with rule windowMs = 1000, maxRequests = 3 and five requests
for key K all within 1000ms of the first, requests 1–3 are admitted with
remaining 2, 1, 0 respectively, and requests 4 and 5 are both denied with
the same resetAt (here 1000). -/
theorem c3_five_request_trace :
    (processSeq ("K", "aiChat") ⟨1000, 3, "aiChat"⟩ (fun _ => none)
        [0, 200, 400, 600, 800]).1 =
      [⟨true, 2, 1000⟩, ⟨true, 1, 1000⟩, ⟨true, 0, 1000⟩,
       ⟨false, 0, 1000⟩, ⟨false, 0, 1000⟩] := by
  decide

/-- Claim C4: once the window has elapsed for a key (current time strictly
past `windowStartedAt + windowMs`, the spec's reset condition), the next
increment for that key starts a fresh window: count resets to 1 with the new
window start, instead of continuing the old count. -/
theorem c4_window_reset (store : Store) (key : Key) (rule : RateLimitRule)
    (c w0 now : Nat)
    (hentry : store key = some ⟨c, w0⟩)
    (helapsed : w0 + rule.windowMs < now) :
    (localIncrement store key rule.windowMs now).1.1 = 1
    ∧ (localIncrement store key rule.windowMs now).2 key = some ⟨1, now⟩ := by
  have h : now > w0 + rule.windowMs := helapsed
  simp [localIncrement, hentry, h]

/-- Witness for C4: an entry with count 5 started at 0, window 1000ms, next
request at 1500. -/
theorem c4_window_reset_witness :
    (localIncrement
        (fun k => if k = (("u", "general") : Key) then some ⟨5, 0⟩ else none)
        ("u", "general") 1000 1500).1.1 = 1
    ∧ (localIncrement
        (fun k => if k = (("u", "general") : Key) then some ⟨5, 0⟩ else none)
        ("u", "general") 1000 1500).2 ("u", "general") = some ⟨1, 1500⟩ :=
  c4_window_reset
    (fun k => if k = (("u", "general") : Key) then some ⟨5, 0⟩ else none)
    ("u", "general") ⟨1000, 3, "general"⟩ 5 0 1500 (by decide) (by decide)

/-- Claim C5: the counts held for the general and the aiChat tier of one
client are independent — any sequence of aiChat-tier checks (in particular
one that exhausts the aiChat limit) leaves the general-tier counter entry,
and hence the next general-tier check result (its remaining included),
unchanged. -/
theorem c5_tier_independence (client : String) (store : Store)
    (aiRule genRule : RateLimitRule) (ts : List Nat) (now : Nat) :
    (processSeq (client, "aiChat") aiRule store ts).2 (client, "general")
        = store (client, "general")
    ∧ (check ((processSeq (client, "aiChat") aiRule store ts).2)
          (client, "general") genRule now).1
        = (check store (client, "general") genRule now).1 := by
  have hs : ("general" : String) ≠ "aiChat" := by decide
  have hne : ((client, "general") : Key) ≠ (client, "aiChat") := by
    intro h
    exact hs (congrArg Prod.snd h)
  have hpres := processSeq_other (client, "aiChat") (client, "general") aiRule hne ts store
  exact ⟨hpres, check_congr _ _ _ genRule now hpres⟩

lemma check_state (store : Store) (key : Key) (rule : RateLimitRule) (now : Nat) :
    ∃ w0, (check store key rule now).2 key
        = some ⟨(localIncrement store key rule.windowMs now).1.1, w0⟩
      ∧ (check store key rule now).1.resetAt = w0 + rule.windowMs := by
  cases hsk : store key with
  | none => exact ⟨now, by simp [check, localIncrement, hsk]⟩
  | some e =>
      by_cases ht : now > e.windowStartedAt + rule.windowMs
      · exact ⟨now, by simp [check, localIncrement, hsk, ht]⟩
      · exact ⟨e.windowStartedAt, by simp [check, localIncrement, hsk, ht]⟩

/-- Claim C2: check(key, rule) returns remaining = max(0, maxRequests −
count) and allowed = (count ≤ maxRequests), with count the value returned by
the active adapter increment; the request whose increment makes count reach
maxRequests is admitted and the next request in the same window is
denied. -/
theorem c2_check_contract (store : Store) (key : Key) (rule : RateLimitRule)
    (now : Nat) :
    (check store key rule now).1.remaining
        = max 0 ((rule.maxRequests : Int)
            - ((localIncrement store key rule.windowMs now).1.1 : Int))
    ∧ (check store key rule now).1.allowed
        = decide ((localIncrement store key rule.windowMs now).1.1 ≤ rule.maxRequests)
    ∧ ((localIncrement store key rule.windowMs now).1.1 = rule.maxRequests →
        (check store key rule now).1.allowed = true)
    ∧ ((localIncrement store key rule.windowMs now).1.1 = rule.maxRequests →
        ∀ now', now' ≤ (check store key rule now).1.resetAt →
          (check (check store key rule now).2 key rule now').1.allowed = false) := by
  refine ⟨rfl, rfl, ?_, ?_⟩
  · intro hc
    have hdef : (check store key rule now).1.allowed
        = decide ((localIncrement store key rule.windowMs now).1.1 ≤ rule.maxRequests) := rfl
    rw [hdef, hc]
    simp
  · intro hc now' hle
    obtain ⟨w0, hw, hreset⟩ := check_state store key rule now
    have hwin : now' ≤ w0 + rule.windowMs := hreset ▸ hle
    have hw' : (check store key rule now).2 key = some ⟨rule.maxRequests, w0⟩ := hc ▸ hw
    have hnext := check_within (check store key rule now).2 key rule
      rule.maxRequests w0 now' hw' hwin
    rw [hnext]
    simp [windowResult]

/-- Witness for C2: with maxRequests = 1 the first request reaches the
limit and is admitted; the follow-up at 500ms inside the window is
denied. -/
theorem c2_check_contract_witness :
    (check (fun _ => none) ("c", "general") ⟨1000, 1, "general"⟩ 0).1.allowed = true
    ∧ (check (check (fun _ => none) ("c", "general") ⟨1000, 1, "general"⟩ 0).2
        ("c", "general") ⟨1000, 1, "general"⟩ 500).1.allowed = false :=
  ⟨(c2_check_contract (fun _ => none) ("c", "general") ⟨1000, 1, "general"⟩ 0).2.2.1 rfl,
   (c2_check_contract (fun _ => none) ("c", "general") ⟨1000, 1, "general"⟩ 0).2.2.2
     rfl 500 (by decide)⟩

/-- The three rate-limit tiers of the Rule Registry wired by server.js. -/
inductive Tier
  | general
  | upload
  | aiChat
  deriving DecidableEq

/-- Translated from src/unnamed/part_000 (server.js): the rate-limit
middleware attachments in mount order — line 39 applies rateLimits.general
to "/api/", and lines 135–137 additionally apply rateLimits.upload to
"/api/documents" and rateLimits.aiChat to "/api/chat" and
"/api/business-ideas".  The other mounts (auth, profile, redis, lines
133–138) attach no tier middleware.  The route handler modules are not part
of the provided sources; per the spec (§6) they never call the Rate Limiter
Core directly, so this table is the complete set of rate-limit
applications. -/
def tierMounts : List (String × Tier) :=
  [("/api/", Tier.general),
   ("/api/documents", Tier.upload),
   ("/api/chat", Tier.aiChat),
   ("/api/business-ideas", Tier.aiChat)]

/-- A mount path matches a request path when it is a leading segment of it
(character-wise, the way Express mounts match path-initial segments). -/
def pathMatches (mount p : String) : Bool :=
  List.isPrefixOf mount.data p.data

/-- The tiers whose middleware runs for a request path: every mount whose
path matches the request path contributes its tier, in mount order. -/
def tiersFor (path : String) : List Tier :=
  (tierMounts.filter (fun m => pathMatches m.1 path)).map (fun m => m.2)

/-- Claim C6: the middleware is attached by route group with exactly the
three configured tiers — the general tier guards every /api/ request, the
upload tier additionally guards /api/documents, and the aiChat tier
additionally guards /api/chat and /api/business-ideas, while the remaining
API mounts carry only the general tier. -/
theorem c6_route_tier_wiring (p : String) (h : pathMatches "/api/" p = true) :
    Tier.general ∈ tiersFor p
    ∧ tiersFor "/api/documents" = [Tier.general, Tier.upload]
    ∧ tiersFor "/api/chat" = [Tier.general, Tier.aiChat]
    ∧ tiersFor "/api/business-ideas" = [Tier.general, Tier.aiChat]
    ∧ tiersFor "/api/auth" = [Tier.general]
    ∧ tiersFor "/api/profile" = [Tier.general]
    ∧ tiersFor "/api/redis" = [Tier.general] := by
  refine ⟨?_, by decide, by decide, by decide, by decide, by decide, by decide⟩
  apply List.mem_map.mpr
  refine ⟨("/api/", Tier.general), ?_, rfl⟩
  apply List.mem_filter.mpr
  exact ⟨by simp [tierMounts], by simpa using h⟩

/-- Witness for C6 at the concrete path /api/chat. -/
theorem c6_route_tier_wiring_witness :
    pathMatches "/api/" "/api/chat" = true
    ∧ Tier.general ∈ tiersFor "/api/chat" :=
  ⟨by decide, (c6_route_tier_wiring "/api/chat" (by decide)).1⟩

/-- The two counter backends of the spec (§3 BackendMode): the shared
network store and the in-process table. -/
inductive BackendMode
  | shared
  | localTable
  deriving DecidableEq

/-- What startup produced: the backend mode serving rate limiting, whether
the fallback warning was logged, and whether the HTTP server was started. -/
structure StartupOutcome where
  mode : BackendMode
  warnedFallback : Bool
  listening : Bool
  deriving DecidableEq

/-- Translated from src/unnamed/part_000 startServer (lines 149–203).  The
probe redisService.getConnectionStatus is modelled from the spec (§4.1,
§4.2): the redis service module is not under the provided sources; its
probe runs with a bounded timeout and resolves to a status string, never
throwing into the caller.  startServer compares the status with
"connected": on success the shared store backs rate limiting; otherwise it
logs the fallback warning ("Redis connection failed - falling back to
in-memory storage") and the process keeps the in-process backend.
app.listen is reached on both branches, so the server starts either way. -/
def startServer (probeStatus : String) : StartupOutcome :=
  if probeStatus = "connected" then
    ⟨BackendMode.shared, false, true⟩
  else
    ⟨BackendMode.localTable, true, true⟩

/-- Claim C7: the startup connectivity probe decides the initial backend
mode — success gives Shared, failure gives Local with a logged warning —
and in both cases the server still starts: the probe failure is never
fatal. -/
theorem c7_startup_probe (s : String) :
    (startServer s).listening = true
    ∧ (s = "connected" → (startServer s).mode = BackendMode.shared
        ∧ (startServer s).warnedFallback = false)
    ∧ (s ≠ "connected" → (startServer s).mode = BackendMode.localTable
        ∧ (startServer s).warnedFallback = true) := by
  by_cases h : s = "connected" <;> simp [startServer, h]

/-- Witness for C7 at the two concrete probe outcomes. -/
theorem c7_startup_probe_witness :
    (startServer "connected").mode = BackendMode.shared
    ∧ (startServer "timeout").mode = BackendMode.localTable
    ∧ (startServer "timeout").warnedFallback = true
    ∧ (startServer "timeout").listening = true :=
  ⟨((c7_startup_probe "connected").2.1 rfl).1,
   ((c7_startup_probe "timeout").2.2 (by decide)).1,
   ((c7_startup_probe "timeout").2.2 (by decide)).2,
   (c7_startup_probe "timeout").1⟩

/-- The structured failure payload of a throttling response (spec §6):
success flag, error message, and a data field that is null. -/
structure ThrottleBody where
  success : Bool
  error : Option String
  dataIsNull : Bool
  deriving DecidableEq

/-- What the middleware produced for one request: HTTP status, the
short-circuit body if any, the retry-after seconds on denial, the
remaining/reset metadata on admission, and whether the route handler
ran. -/
structure MiddlewareOutcome where
  status : Nat
  body : Option ThrottleBody
  retryAfterSecs : Option Nat
  remainingHeader : Option Int
  resetAtHeader : Option Nat
  handlerRan : Bool
  deriving DecidableEq

/-- Modelled from the spec: §6 retry-after — whole seconds until resetAt,
rounded up from the millisecond difference. -/
def secondsUntil (resetAt now : Nat) : Nat := (resetAt - now + 999) / 1000

/-- Modelled from the spec: §4.5 Middleware Adapter and §6 response
contracts — the middleware/security module is not under the provided
sources.  On allowed = true the request is forwarded to the route handler
with remaining/reset metadata attached (status 200 stands for whatever the
handler then produces); on allowed = false it short-circuits with the
rate-limit-exceeded status 429, the body success:false with an error
message and data:null, and the retry-after seconds derived from resetAt. -/
def middlewareHandle (store : Store) (key : Key) (rule : RateLimitRule)
    (now : Nat) : MiddlewareOutcome × Store :=
  let p := check store key rule now
  if p.1.allowed then
    (⟨200, none, none, some p.1.remaining, some p.1.resetAt, true⟩, p.2)
  else
    (⟨429, some ⟨false, some "Too many requests, please try again later", true⟩,
      some (secondsUntil p.1.resetAt now), none, none, false⟩, p.2)

/-- Claim C8: every denied request short-circuits without running the route
handler and answers with the rate-limit-exceeded status 429, the structured
body success:false / error message / data:null, and retry-after seconds
until resetAt; and a 429 arises only from a denial, so this denial is the
only rate-limiting condition visible to API consumers. -/
theorem c8_denial_contract (store : Store) (key : Key) (rule : RateLimitRule)
    (now : Nat)
    (hdenied : (check store key rule now).1.allowed = false) :
    (middlewareHandle store key rule now).1 =
      ⟨429, some ⟨false, some "Too many requests, please try again later", true⟩,
       some (secondsUntil (check store key rule now).1.resetAt now),
       none, none, false⟩
    ∧ ∀ (store' : Store) (key' : Key) (rule' : RateLimitRule) (now' : Nat),
        (middlewareHandle store' key' rule' now').1.status = 429 →
        (check store' key' rule' now').1.allowed = false := by
  constructor
  · simp [middlewareHandle, hdenied]
  · intro store' key' rule' now' hst
    cases hall : (check store' key' rule' now').1.allowed with
    | false => rfl
    | true => simp [middlewareHandle, hall] at hst

/-- Witness for C8: a key whose window already holds 3 of 3 requests; the
next request at 400ms is denied, with one second left until the 1000ms
reset. -/
theorem c8_denial_contract_witness :
    (middlewareHandle (fun _ => some ⟨3, 0⟩) ("c", "general")
        ⟨1000, 3, "general"⟩ 400).1 =
      ⟨429, some ⟨false, some "Too many requests, please try again later", true⟩,
       some 1, none, none, false⟩ :=
  (c8_denial_contract (fun _ => some ⟨3, 0⟩) ("c", "general")
    ⟨1000, 3, "general"⟩ 400 (by decide)).1

/-- The data block of a successful /health response (server.js lines
88–98). -/
structure HealthData (R : Type) where
  status : String
  timestamp : String
  environment : String
  version : String
  redis : R

/-- A /health response: HTTP status plus the structured body fields. -/
structure HealthResponse (R : Type) where
  httpStatus : Nat
  success : Bool
  data : Option (HealthData R)
  error : Option String

/-- Translated from src/unnamed/part_000, the GET /health handler (lines
83–107): it awaits getRedisHealth(); when the lookup resolves, it responds
(default status 200) with success:true, the data block embedding the redis
health value, and error:null; when the lookup throws, the catch branch
responds 500 with exactly success:false, error:"Health check failed",
data:null.  The redis health value and the thrown error are the two sides
of the Except argument; the timestamp and environment strings are passed
in. -/
def healthHandler {R : Type} (ts env : String)
    (redisResult : Except String R) : HealthResponse R :=
  match redisResult with
  | Except.ok h => ⟨200, true, some ⟨"OK", ts, env, "1.0.0", h⟩, none⟩
  | Except.error _ => ⟨500, false, none, some "Health check failed"⟩

/-- Claim C9: the /health handler is total over the outcome of the Redis
health lookup — a resolved lookup yields the success body embedding the
redis block with error:null, and a thrown lookup is caught and yields HTTP
500 with exactly the fixed failure body, so the exception never escapes the
handler. -/
theorem c9_health_handler_total {R : Type} (ts env : String)
    (redisResult : Except String R) :
    (∀ h : R, redisResult = Except.ok h →
        healthHandler ts env redisResult
          = ⟨200, true, some ⟨"OK", ts, env, "1.0.0", h⟩, none⟩)
    ∧ (∀ e : String, redisResult = Except.error e →
        healthHandler ts env redisResult
          = ⟨500, false, none, some "Health check failed"⟩) := by
  constructor
  · intro h hh
    rw [hh]
    rfl
  · intro e he
    rw [he]
    rfl

/-- Witness for C9 at one resolved and one thrown lookup. -/
theorem c9_health_handler_total_witness :
    healthHandler "2026-10-11T00:00:00.000Z" "development"
        (Except.ok "healthy" : Except String String)
      = ⟨200, true,
         some ⟨"OK", "2026-10-11T00:00:00.000Z", "development", "1.0.0", "healthy"⟩,
         none⟩
    ∧ healthHandler "2026-10-11T00:00:00.000Z" "development"
        (Except.error "ECONNREFUSED" : Except String String)
      = ⟨500, false, none, some "Health check failed"⟩ :=
  ⟨(c9_health_handler_total "2026-10-11T00:00:00.000Z" "development"
      (Except.ok "healthy")).1 "healthy" rfl,
   (c9_health_handler_total "2026-10-11T00:00:00.000Z" "development"
      (Except.error "ECONNREFUSED")).2 "ECONNREFUSED" rfl⟩

/-- One chat message of the OpenAI request (role plus content). -/
structure ChatMessage where
  role : String
  content : String
  deriving DecidableEq

/-- One choice of an OpenAI completion. -/
structure ChatChoice where
  message : ChatMessage
  deriving DecidableEq

/-- An OpenAI completion: its list of choices. -/
structure ChatCompletion where
  choices : List ChatChoice
  deriving DecidableEq

/-- Translated from src/backend/config/openai.js createChatCompletion
(lines 10–25).  The network call openai.chat.completions.create is
abstracted as the function api from the request messages to either a
completion or a provider error (sampling options such as model and
max_tokens do not change the control flow and are absorbed into api).  On a
resolved completion the handler returns choices[0].message.content; an
empty choices list makes that member access throw inside the same try
block, so both a provider error and the missing first choice land in the
catch branch, which rethrows the fixed message. -/
def createChatCompletion
    (api : List ChatMessage → Except String ChatCompletion)
    (messages : List ChatMessage) : Except String String :=
  match api messages with
  | Except.error _ => Except.error "Failed to generate AI response"
  | Except.ok c =>
      match c.choices with
      | [] => Except.error "Failed to generate AI response"
      | ch :: _ => Except.ok ch.message.content

/-- The business context fields of openai.js generateFinancialAdvice; each
field is optional, defaulting in the prompt text. -/
structure UserProfile where
  businessName : Option String
  businessType : Option String
  location : Option String
  monthlyRevenue : Option String
  monthlyExpenses : Option String

/-- Translated from openai.js generateFinancialAdvice (lines 29–44): the
system prompt with the profile fields substituted; missing fields become
"Not specified" and a missing location becomes "India". -/
def financialSystemPrompt (p : UserProfile) : String :=
  "You are a Virtual CFO assistant for small and medium businesses in India. \n  Provide practical, actionable financial advice based on the user\x27s business context.\n  \n  User Business Context:\n  - Business Name: "
    ++ p.businessName.getD "Not specified"
    ++ "\n  - Business Type: "
    ++ p.businessType.getD "Not specified"
    ++ "\n  - Location: "
    ++ p.location.getD "India"
    ++ "\n  - Monthly Revenue: ₹"
    ++ p.monthlyRevenue.getD "Not specified"
    ++ "\n  - Monthly Expenses: ₹"
    ++ p.monthlyExpenses.getD "Not specified"
    ++ "\n  \n  Guidelines:\n  - Provide specific, actionable advice\n  - Focus on Indian business context and regulations\n  - Include relevant financial metrics and KPIs\n  - Suggest practical implementation steps\n  - Keep responses concise but comprehensive"

/-- The message list generateFinancialAdvice passes to
createChatCompletion (openai.js lines 46–49). -/
def financialMessages (userMessage : String) (p : UserProfile) :
    List ChatMessage :=
  [⟨"system", financialSystemPrompt p⟩, ⟨"user", userMessage⟩]

/-- Translated from openai.js generateFinancialAdvice (lines 28–52):
builds the system and user messages and delegates to
createChatCompletion. -/
def generateFinancialAdvice
    (api : List ChatMessage → Except String ChatCompletion)
    (userMessage : String) (p : UserProfile) : Except String String :=
  createChatCompletion api (financialMessages userMessage p)

/-- Translated from openai.js generateBusinessIdeas (lines 56–64): the
fixed system prompt. -/
def businessIdeasSystemPrompt : String :=
  "You are a business consultant specializing in trending global business ideas adapted for the Indian market.\n  Provide practical, feasible business ideas that consider local market conditions, regulations, and cultural preferences.\n  \n  Focus on:\n  - Current global business trends\n  - Indian market adaptation\n  - Realistic budget requirements\n  - ROI potential and timelines\n  - Implementation feasibility"

/-- Translated from openai.js generateBusinessIdeas (lines 66–79): the
user prompt with budget and industry substituted. -/
def businessIdeasUserPrompt (budget fld : String) : String :=
  "Generate trending business ideas for the " ++ fld
    ++ " industry with a budget of ₹" ++ budget
    ++ ".\n  \n  Requirements:\n  - Budget: ₹" ++ budget
    ++ "\n  - Industry: " ++ fld
    ++ "\n  - Market: India\n  - Focus: Trending global concepts adapted for Indian market\n  \n  Please provide:\n  1. 3-5 specific business ideas\n  2. Investment breakdown for each\n  3. Market potential and target audience\n  4. Implementation timeline\n  5. Expected ROI and break-even period"

/-- The message list generateBusinessIdeas passes to createChatCompletion
(openai.js lines 81–84). -/
def businessIdeasMessages (budget fld : String) : List ChatMessage :=
  [⟨"system", businessIdeasSystemPrompt⟩,
   ⟨"user", businessIdeasUserPrompt budget fld⟩]

/-- Translated from openai.js generateBusinessIdeas (lines 55–87): builds
the system and user messages and delegates to createChatCompletion. -/
def generateBusinessIdeas
    (api : List ChatMessage → Except String ChatCompletion)
    (budget fld : String) : Except String String :=
  createChatCompletion api (businessIdeasMessages budget fld)

/-- Claim C10: whenever the underlying OpenAI call fails,
createChatCompletion rejects with exactly "Failed to generate AI response"
and never propagates the provider error; on success it returns the first
choice message content; generateFinancialAdvice and generateBusinessIdeas
delegate to createChatCompletion on their constructed messages and hence
reject with the same fixed message when the call fails. -/
theorem c10_ai_error_masking
    (api : List ChatMessage → Except String ChatCompletion)
    (messages : List ChatMessage) (u : String) (p : UserProfile)
    (budget fld : String) :
    (∀ e, api messages = Except.error e →
        createChatCompletion api messages
          = Except.error "Failed to generate AI response")
    ∧ (∀ c ch tl, api messages = Except.ok c → c.choices = ch :: tl →
        createChatCompletion api messages = Except.ok ch.message.content)
    ∧ generateFinancialAdvice api u p
        = createChatCompletion api (financialMessages u p)
    ∧ generateBusinessIdeas api budget fld
        = createChatCompletion api (businessIdeasMessages budget fld)
    ∧ (∀ e, api (financialMessages u p) = Except.error e →
        generateFinancialAdvice api u p
          = Except.error "Failed to generate AI response")
    ∧ (∀ e, api (businessIdeasMessages budget fld) = Except.error e →
        generateBusinessIdeas api budget fld
          = Except.error "Failed to generate AI response") := by
  refine ⟨?_, ?_, rfl, rfl, ?_, ?_⟩
  · intro e he
    simp [createChatCompletion, he]
  · intro c ch tl hc hch
    simp [createChatCompletion, hc, hch]
  · intro e he
    simp [generateFinancialAdvice, createChatCompletion, he]
  · intro e he
    simp [generateBusinessIdeas, createChatCompletion, he]

/-- Witness for C10: a failing provider call and a succeeding one. -/
theorem c10_ai_error_masking_witness :
    createChatCompletion (fun _ => Except.error "provider down") []
      = Except.error "Failed to generate AI response"
    ∧ createChatCompletion
        (fun _ => Except.ok ⟨[⟨⟨"assistant", "hello"⟩⟩]⟩) []
      = Except.ok "hello"
    ∧ generateFinancialAdvice (fun _ => Except.error "provider down")
        "How do I cut costs?" ⟨none, none, none, none, none⟩
      = Except.error "Failed to generate AI response" :=
  ⟨(c10_ai_error_masking (fun _ => Except.error "provider down") []
      "" ⟨none, none, none, none, none⟩ "" "").1 "provider down" rfl,
   (c10_ai_error_masking (fun _ => Except.ok ⟨[⟨⟨"assistant", "hello"⟩⟩]⟩) []
      "" ⟨none, none, none, none, none⟩ "" "").2.1
     ⟨[⟨⟨"assistant", "hello"⟩⟩]⟩ ⟨⟨"assistant", "hello"⟩⟩ [] rfl rfl,
   (c10_ai_error_masking (fun _ => Except.error "provider down")
      [] "How do I cut costs?" ⟨none, none, none, none, none⟩ "" "").2.2.2.2.1
     "provider down" rfl⟩

end VCFO
